import Mathlib

/-!
# Verification of the nvscreencopy capture/copy/presentation pipeline

Shallow embedding of the core pipeline of `nvscreencopy`:

* `handle_frame` (src/main.rs): reassembly of the wlr export-dmabuf
  protocol events (`Frame`/`Object`/`Ready`/`Cancel`) into a `Dmabuf`
  descriptor, held in `WaylandState`.
* `render_dmabuf`, `copy_by_import`, `copy_by_cpu` (src/render.rs):
  copy-strategy selection and the buffer-swap error classification.
* `EglStreamSurface::resize` / `create_stream` / `create` (src/egl.rs):
  the stream-surface state machine.
* the calloop event dispatching (src/main.rs `main`): vblank-triggered
  capture requests and the retry tick.

Machine integers are modelled as `Nat` (unsigned) or `Int` (signed),
with explicit `% 2^w` where wrap-around matters.  Native GPU / EGL calls
are abstracted as oracles (`RenderEnv`, `CreateEnv`) telling whether each
fallible native call succeeds; `panic!` / `.expect` are modelled as an
explicit `panic` outcome that terminates the process.
-/

namespace Nvscreencopy

/-! ## Data model: planes, dmabuf builder (src/main.rs, smithay boundary) -/

/-- One plane of a dmabuf, as recorded by `DmabufBuilder::add_plane`:
file descriptor, plane index, byte offset, row stride and the 64-bit
format modifier. -/
structure Plane where
  fd : Nat
  planeIdx : Nat
  offset : Nat
  stride : Nat
  modifier : Nat
  deriving Repr, DecidableEq

/-- The in-progress dmabuf descriptor (smithay `DmabufBuilder` contents as
used by src/main.rs): size, fourcc format code, flag bitmask and the
ordered plane list.  Width/height are `i32` values obtained by casting the
protocol's `u32` fields. -/
structure DmabufBuilder where
  width : Int
  height : Int
  format : Nat
  flags : Nat
  planes : List Plane
  deriving Repr, DecidableEq

/-- The completed frame descriptor produced by `DmabufBuilder::build`. -/
structure Dmabuf where
  width : Int
  height : Int
  format : Nat
  flags : Nat
  planes : List Plane
  deriving Repr, DecidableEq

/-- `u32 as i32` cast (wrapping reinterpretation), used for the protocol's
width/height fields in `Dmabuf::builder((width as i32, height as i32), ..)`. -/
def u32_as_i32 (n : Nat) : Int :=
  if n % 2 ^ 32 < 2 ^ 31 then (n % 2 ^ 32 : Int) else (n % 2 ^ 32 : Int) - 2 ^ 32

/-- `DmabufFlags::from_bits_truncate`: smithay's dmabuf flags occupy bits
0-2 (Y_INVERT / INTERLACED / BOTTOM_FIRST), all other bits are truncated. -/
def dmabufFlags_from_bits_truncate (bits : Nat) : Nat := bits % 2 ^ 32 &&& 7

/-- `Dmabuf::builder((width as i32, height as i32), format, flags)`
(src/main.rs, `Frame` arm): a fresh builder with no planes.
`Fourcc::try_from(format)` is validated by the external smithay layer; a
valid capture sequence carries a known fourcc, which we keep as its
numeric code. -/
def dmabufBuilder_new (width height format flags : Nat) : DmabufBuilder :=
  { width := u32_as_i32 width
    height := u32_as_i32 height
    format := format % 2 ^ 32
    flags := dmabufFlags_from_bits_truncate flags
    planes := [] }

/-- `DmabufBuilder::add_plane(fd, plane_index, offset, stride, modifier)`:
appends the plane to the builder's list (submission order preserved). -/
def dmabufBuilder_add_plane (b : DmabufBuilder) (fd planeIdx offset stride modifier : Nat) :
    DmabufBuilder :=
  { b with planes := b.planes ++
      [{ fd := fd, planeIdx := planeIdx, offset := offset, stride := stride,
         modifier := modifier }] }

/-- `DmabufBuilder::build()`.  Modelled from the spec: building is the
external smithay boundary; the spec's session contract (`onReady()`
"finalizes and returns the completed descriptor") has no failure mode for
a protocol-valid sequence, so build succeeds and returns the collected
fields. -/
def dmabufBuilder_build (b : DmabufBuilder) : Dmabuf :=
  { width := b.width, height := b.height, format := b.format, flags := b.flags,
    planes := b.planes }

/-- The completed descriptor's 64-bit modifier: smithay reads it from the
first plane (every plane was stamped with the same combined modifier by
`handle_frame`). -/
def Dmabuf.modifierOfFrame (d : Dmabuf) : Option Nat :=
  d.planes.head?.map Plane.modifier

/-- `((mod_high as u64) << 32) | mod_low as u64` (src/main.rs:106), the
64-bit modifier combined from the two 32-bit protocol fields.  The `%
2^32` reflect the `u32` type of the fields; the result is below `2^64`,
so no `u64` wrap occurs. -/
def combineModifier (modHigh modLow : Nat) : Nat :=
  ((modHigh % 2 ^ 32) <<< 32) ||| (modLow % 2 ^ 32)

/-! ## Copy strategy and render environment (src/render.rs) -/

/-- `CopyState` (src/main.rs): the sticky copy strategy. -/
inductive CopyState
  | DirectImport
  | CPUCopy
  deriving Repr, DecidableEq

/-- smithay `EGLError` as surfaced by `swap_buffers`: the named EGL error
conditions plus `Unknown code` for non-standard native codes (such as the
nvidia `RESOURCE_BUSY_EXT = 0x3353`). -/
inductive EGLError
  | BadSurface
  | BadDisplay
  | BadParameter
  | BadNativeWindow
  | ContextLost
  | Unknown (code : Nat)
  deriving Repr, DecidableEq

/-- smithay `SwapBuffersError` as matched by src/render.rs:127-137. -/
inductive SwapBuffersError
  | EGLSwapBuffers (e : EGLError)
  | EGLCreateSurface (e : EGLError)
  | AlreadySwapped
  deriving Repr, DecidableEq

/-- Oracle for the fallible native calls of one `render_dmabuf` run:
whether `copy_by_import` succeeds, whether `copy_by_cpu` succeeds, and
the outcome of `swap_buffers` (`none` = success). -/
structure RenderEnv where
  importOk : Bool
  cpuOk : Bool
  swap : Option SwapBuffersError
  deriving Repr, DecidableEq

/-- Which copy routine a `render_dmabuf` call invoked (for the
never-re-attempts property). -/
inductive Attempt
  | importAttempt
  | cpuAttempt
  deriving Repr, DecidableEq

/-! ## Wayland state (src/main.rs `WaylandState`) -/

/-- The pipeline state of src/main.rs `WaylandState`, restricted to the
fields the pipeline logic reads or writes: the in-progress descriptor
with its combined modifier (`dmabuf: Option<(DmabufBuilder, u64)>`), the
sticky retry flag (`try_again`), the copy strategy (`copy`) and the
length of the reusable CPU byte buffer (`buffer: Vec<u8>`; only its
length matters, raw-pointer writes never change it). -/
structure WaylandState where
  dmabuf : Option (DmabufBuilder × Nat)
  tryAgain : Bool
  copy : Option CopyState
  bufferLen : Nat
  deriving Repr, DecidableEq

/-- The reusable CPU buffer allocation at startup (src/main.rs:337):
`vec![0u8; (mode.dimensions.0 * mode.dimensions.1 * 4) as usize]`. -/
def initialBufferLen (srcWidth srcHeight : Nat) : Nat := srcWidth * srcHeight * 4

/-! ## render_dmabuf (src/render.rs) -/

/-- Result of a `render_dmabuf` call: normal return (`Ok(())` with the
updated state), an `Err` propagated to the caller (`?` on the fixed copy
path), or a `panic!` that terminates the process. -/
inductive RenderResult
  | ok (st : WaylandState)
  | err (msg : String)
  | panic (msg : String)
  deriving Repr, DecidableEq

/-- The transient-swap-error classification of src/render.rs:127-130:
`EGLSwapBuffers(Unknown(0x3353))` (`RESOURCE_BUSY_EXT`),
`EGLSwapBuffers(Unknown(0x321c))` and `EGLSwapBuffers(BadSurface)` are
recoverable; everything else panics. -/
def isTransientSwapError : SwapBuffersError → Bool
  | .EGLSwapBuffers (.Unknown c) => c == 0x3353 || c == 0x321c
  | .EGLSwapBuffers .BadSurface => true
  | _ => false

/-- The `swap_buffers` match of src/render.rs:127-138, applied after a
successful copy: a transient error sets the sticky retry flag and the
call still returns `Ok`; any other error panics; success changes
nothing. -/
def swapStep (st : WaylandState) (swap : Option SwapBuffersError) : RenderResult :=
  match swap with
  | some e =>
      if isTransientSwapError e then .ok { st with tryAgain := true }
      else .panic "Swapping buffers failed"
  | none => .ok st

/-- Byte footprint of the raw `gl.ReadPixels(0, 0, w, h, RGBA,
UNSIGNED_BYTE, buffer_ptr)` write of `copy_by_cpu` (src/render.rs:78-82):
`w * h * 4` bytes written into the reusable buffer with no bounds
check. -/
def copy_by_cpu_writeBytes (buf : Dmabuf) : Int := buf.width * buf.height * 4

/-- The unchecked write of `copy_by_cpu` lands outside the reusable
buffer. -/
def cpuCopyOutOfBounds (st : WaylandState) (buf : Dmabuf) : Prop :=
  (st.bufferLen : Int) < copy_by_cpu_writeBytes buf

instance (st : WaylandState) (buf : Dmabuf) : Decidable (cpuCopyOutOfBounds st buf) := by
  unfold cpuCopyOutOfBounds; infer_instance

/-- `render_dmabuf` (src/render.rs:94-141).  Returns the list of copy
routines attempted (in order) together with the outcome.
* strategy undecided (`None`): try `copy_by_import`; on success fix
  `DirectImport`; else try `copy_by_cpu`; on success fix `CPUCopy`; if
  both fail, `panic!("Could not determine working copy path")`;
* fixed strategy: call only that routine, propagating its failure as
  `Err` (`?`);
* after a successful copy, bind/render and classify `swap_buffers` via
  `swapStep`.  (The intermediate `bind`/`render` calls fail only by
  panicking `expect`s and are not part of any claim; the oracle treats
  them as succeeding.) -/
def render_dmabuf (env : RenderEnv) (st : WaylandState) : List Attempt × RenderResult :=
  match st.copy with
  | none =>
      if env.importOk then
        ([.importAttempt], swapStep { st with copy := some .DirectImport } env.swap)
      else if env.cpuOk then
        ([.importAttempt, .cpuAttempt], swapStep { st with copy := some .CPUCopy } env.swap)
      else
        ([.importAttempt, .cpuAttempt], .panic "Could not determine working copy path")
  | some .DirectImport =>
      if env.importOk then ([.importAttempt], swapStep st env.swap)
      else ([.importAttempt], .err "import failed")
  | some .CPUCopy =>
      if env.cpuOk then ([.cpuAttempt], swapStep st env.swap)
      else ([.cpuAttempt], .err "cpu copy failed")

/-- A run of `render_dmabuf` over successive frames (each with its own
native-call oracle): collects the attempt list of every call; a call that
does not return `Ok` ends the run (its `Err`/panic is fatal upstream,
src/main.rs:130). -/
def renderRun (st : WaylandState) : List RenderEnv → List (List Attempt)
  | [] => []
  | env :: rest =>
      match render_dmabuf env st with
      | (att, .ok st') => att :: renderRun st' rest
      | (att, _) => [att]

/-! ## handle_frame (src/main.rs:84-145) -/

/-- One wlr export-dmabuf protocol event as matched by `handle_frame`.
All scalar payloads are the protocol's `u32` fields. -/
inductive CaptureEvent
  | frame (width height bufferFlags format modHigh modLow : Nat)
  | object (fd planeIdx offset stride : Nat)
  | ready
  | cancel (permanent : Bool)
  deriving Repr, DecidableEq

/-- Outcome of one `handle_frame` dispatch: a normal return with the new
state and (for `Ready`) the completed descriptor handed to
`render_dmabuf`, or a `panic!`/`expect` process abort. -/
inductive HandleOutcome
  | ok (st : WaylandState) (completed : Option Dmabuf)
  | panic (msg : String)
  deriving Repr, DecidableEq

/-- `handle_frame` (src/main.rs:84-145), faithful to each match arm:
* `Frame`: unconditionally stores a fresh `(builder, combined modifier)`
  pair (overwriting any in-progress pair);
* `Object`: `expect`s an in-progress pair, appends the plane stamped with
  the stored modifier;
* `Ready`: `take`s the pair (`expect`ing it), builds the dmabuf, runs
  `render_dmabuf` and `expect`s its result;
* `Cancel(Permanent)`: `panic!("Output died")`;
* `Cancel(_)`: destroys the frame and sets the sticky retry flag. -/
def handle_frame (env : RenderEnv) (st : WaylandState) : CaptureEvent → HandleOutcome
  | .frame width height bufferFlags format modHigh modLow =>
      .ok { st with dmabuf := some (dmabufBuilder_new width height format bufferFlags,
                                    combineModifier modHigh modLow) } none
  | .object fd planeIdx offset stride =>
      match st.dmabuf with
      | none => .panic "Object event before Frame event"
      | some (b, m) =>
          let b' := dmabufBuilder_add_plane b fd planeIdx offset stride m
          .ok { st with dmabuf := some (b', m) } none
  | .ready =>
      match st.dmabuf with
      | none => .panic "Object event before Frame event"
      | some (b, _) =>
          let buf := dmabufBuilder_build b
          match render_dmabuf env { st with dmabuf := none } with
          | (_, .ok st') => .ok st' (some buf)
          | (_, .err _) => .panic "Failed to render"
          | (_, .panic msg) => .panic msg
  | .cancel true => .panic "Output died"
  | .cancel false => .ok { st with tryAgain := true } none

/-- Run a sequence of capture events through `handle_frame`, reporting
the outcome of the last event (a panic anywhere short-circuits). -/
def runEvents (env : RenderEnv) (st : WaylandState) : List CaptureEvent → HandleOutcome
  | [] => .ok st none
  | [e] => handle_frame env st e
  | e :: e' :: rest =>
      match handle_frame env st e with
      | .ok st' _ => runEvents env st' (e' :: rest)
      | .panic m => .panic m

/-- Payload of one `Object` (plane submission) event. -/
structure ObjectReq where
  fd : Nat
  planeIdx : Nat
  offset : Nat
  stride : Nat
  deriving Repr, DecidableEq

/-- The capture event carrying a plane submission. -/
def ObjectReq.toEvent (o : ObjectReq) : CaptureEvent :=
  .object o.fd o.planeIdx o.offset o.stride

/-- The plane recorded for a submission, stamped with the session's
combined modifier. -/
def ObjectReq.toPlane (o : ObjectReq) (modifier : Nat) : Plane :=
  { fd := o.fd, planeIdx := o.planeIdx, offset := o.offset, stride := o.stride,
    modifier := modifier }

/-- Fold a list of plane submissions into a builder (each one stamped
with the combined modifier `M`), in submission order. -/
def addObjects (b : DmabufBuilder) (M : Nat) : List ObjectReq → DmabufBuilder
  | [] => b
  | o :: rest =>
      addObjects (dmabufBuilder_add_plane b o.fd o.planeIdx o.offset o.stride M) M rest

/-! ## The calloop presentation loop (src/main.rs:346-396) -/

/-- One trigger processed by the event loop: a vblank event from the
target GPU's DRM source, the once-per-second timer tick of
`event_loop.run` (which consumes the retry flag), or a capture-protocol
event dispatched to `handle_frame` (with the native-call oracle for its
processing). -/
inductive LoopEvent
  | vblank
  | tick
  | capture (ev : CaptureEvent) (env : RenderEnv)

/-- Whether a capture event is terminal for its capture request (the
frame object is destroyed / the request is finished): `Ready` and
`Cancel` are terminal, `Frame` and `Object` are intermediate. -/
def CaptureEvent.isTerminal : CaptureEvent → Bool
  | .ready => true
  | .cancel _ => true
  | _ => false

/-- Process-level state: the wayland pipeline state, whether the process
is still alive (a `panic!` clears it), plus ghost instrumentation —
`inFlight` counts capture requests issued but not yet terminal, `issued`
counts all `capture_output` calls ever made. -/
structure SysState where
  wl : WaylandState
  alive : Bool
  inFlight : Nat
  issued : Nat
  deriving Repr, DecidableEq

/-- One step of the event loop (src/main.rs:346-359 and 372-394):
* a vblank event issues `capture_output` unconditionally;
* the timer tick runs `try_again.swap(false)` and issues
  `capture_output` exactly when the flag was set;
* a capture event is dispatched to `handle_frame`; a panic kills the
  process; a terminal event retires its in-flight request.
A dead process performs nothing. -/
def loopStep (st : SysState) : LoopEvent → SysState
  | .vblank =>
      if st.alive then { st with inFlight := st.inFlight + 1, issued := st.issued + 1 }
      else st
  | .tick =>
      if st.alive ∧ st.wl.tryAgain then
        { st with wl := { st.wl with tryAgain := false },
                  inFlight := st.inFlight + 1, issued := st.issued + 1 }
      else st
  | .capture ev env =>
      if st.alive then
        match handle_frame env st.wl ev with
        | .ok wl' _ =>
            { st with wl := wl',
                      inFlight := if ev.isTerminal then st.inFlight - 1 else st.inFlight }
        | .panic _ => { st with alive := false }
      else st

/-- Run the event loop over a list of triggers. -/
def runLoop (st : SysState) (evs : List LoopEvent) : SysState :=
  evs.foldl loopStep st

/-! ## EglStreamSurface (src/egl.rs:273-513) -/

/-- The `EglStreamSurface` state (src/egl.rs:273-280): the current native
stream handle (`Cell<Option<EGLStreamKHR>>`), the bound CRTC and plane,
the stored producer surface pointer, and the current `(width, height)`
mode. -/
structure EglStreamSurface where
  stream : Option Nat
  crtc : Nat
  plane : Nat
  surface : Nat
  mode : Int × Int
  deriving Repr, DecidableEq

/-- `EglStreamSurface::new` (src/egl.rs:283-292): no stream, null surface
pointer, the given mode. -/
def EglStreamSurface.new (crtc plane : Nat) (mode : Int × Int) : EglStreamSurface :=
  { stream := none, crtc := crtc, plane := plane, surface := 0, mode := mode }

/-- `EGLNativeSurface::needs_recreation` (src/egl.rs:462-464): the
surface needs recreation exactly when no native stream exists. -/
def EglStreamSurface.needs_recreation (s : EglStreamSurface) : Bool :=
  s.stream.isNone

/-- `EGLNativeSurface::resize` (src/egl.rs:466-472): if the requested
size differs from the current mode, drop the stream handle and record
the new mode; in every case return `true`. -/
def EglStreamSurface.resize (s : EglStreamSurface) (width height : Int) :
    EglStreamSurface × Bool :=
  if s.mode ≠ (width, height) then
    ({ s with stream := none, mode := (width, height) }, true)
  else
    (s, true)

/-- The six extensions `create_stream` requires (src/egl.rs:315-327). -/
def requiredStreamExtensions : List String :=
  ["EGL_EXT_output_base", "EGL_EXT_output_drm", "EGL_KHR_stream",
   "EGL_NV_output_drm_flip_event", "EGL_EXT_stream_consumer_egloutput",
   "EGL_KHR_stream_producer_eglsurface"]

/-- Oracle for the native EGL calls of `create_stream`/`create`
(src/egl.rs): the display's extension list, whether the
`GetOutputLayersEXT` calls succeed, how many layers match the plane, the
handle returned by `CreateStreamKHR` (`none` = `NO_STREAM_KHR`), whether
`StreamConsumerOutputEXT` succeeds, and the handle returned by
`CreateStreamProducerSurfaceKHR`. -/
structure CreateEnv where
  extensions : List String
  getLayersOk : Bool
  numLayers : Nat
  minSwapInterval : Int
  streamHandle : Option Nat
  consumerLinkOk : Bool
  producerSurface : Nat
  deriving Repr, DecidableEq

/-- The swap-interval clamp of src/egl.rs:373-377: a reported minimum of
zero is clamped to one. -/
def effectiveSwapInterval (env : CreateEnv) : Int :=
  if env.minSwapInterval = 0 then 1 else env.minSwapInterval

/-- `EglStreamSurface::create_stream` (src/egl.rs:294-412): checks the
six required extensions (else `BadNativeWindow`), queries the output
layers for the plane (failure or an empty set is `BadParameter`),
creates the stream (`NO_STREAM_KHR` is `BadParameter`), links the layer
as stream consumer (failure is `BadParameter`), and on success stores
the new stream handle. -/
def EglStreamSurface.create_stream (env : CreateEnv) (s : EglStreamSurface) :
    Except EGLError EglStreamSurface :=
  if ¬ requiredStreamExtensions.all (fun e => env.extensions.contains e) then
    .error .BadNativeWindow
  else if env.getLayersOk = false then
    .error .BadParameter
  else if env.numLayers = 0 then
    .error .BadParameter
  else
    match env.streamHandle with
    | none => .error .BadParameter
    | some h =>
        if env.consumerLinkOk then .ok { s with stream := some h }
        else .error .BadParameter

/-- `EGLNativeSurface::create` (src/egl.rs:421-460): runs
`create_stream`, then creates the producer surface sized to the stored
mode and stores its pointer.  (A `NO_SURFACE` result is only logged by
the code; the pointer is stored and returned either way.) -/
def EglStreamSurface.create (env : CreateEnv) (s : EglStreamSurface) :
    Except EGLError (EglStreamSurface × Nat) :=
  match s.create_stream env with
  | .error e => .error e
  | .ok s' => .ok ({ s' with surface := env.producerSurface }, env.producerSurface)

/-! ## Concrete states used as test inputs -/

/-- Native-call oracle where every native call succeeds. -/
def env0 : RenderEnv := { importOk := true, cpuOk := true, swap := none }

/-- A builder mid-construction (a `Frame` event was received). -/
def b0 : DmabufBuilder := dmabufBuilder_new 1920 1080 875713089 0

/-- Pipeline state with no descriptor under construction. -/
def stIdle : WaylandState :=
  { dmabuf := none, tryAgain := false, copy := none,
    bufferLen := initialBufferLen 1920 1080 }

/-- Pipeline state with a descriptor under construction (combined
modifier `1`, i.e. halves `(0, 1)`). -/
def stBusy : WaylandState := { stIdle with dmabuf := some (b0, 1) }

/-- Loop state: idle pipeline, process alive, nothing in flight. -/
def sysIdle : SysState := { wl := stIdle, alive := true, inFlight := 0, issued := 0 }

/-- Loop state: descriptor mid-construction, one capture in flight. -/
def sysMid : SysState := { wl := stBusy, alive := true, inFlight := 1, issued := 1 }

/-- Oracle where both copy routines fail (first-frame dual failure). -/
def envFail : RenderEnv := { importOk := false, cpuOk := false, swap := none }

/-- Oracle where the copy succeeds but the buffer swap fails with the
transient `RESOURCE_BUSY_EXT` (0x3353) native code. -/
def envTransient : RenderEnv :=
  { importOk := true, cpuOk := true, swap := some (.EGLSwapBuffers (.Unknown 0x3353)) }

/-- Oracle where the copy succeeds but the buffer swap fails with an
unclassified native error. -/
def envFatalSwap : RenderEnv :=
  { importOk := true, cpuOk := true, swap := some (.EGLSwapBuffers .BadDisplay) }

/-- A 1280x720 captured frame (smaller than the 1920x1080 source mode). -/
def bufSmall : Dmabuf :=
  { width := 1280, height := 720, format := 875713089, flags := 0, planes := [] }

/-- A freshly constructed stream surface for a 1920x1080 mode. -/
def surf0 : EglStreamSurface := EglStreamSurface.new 42 7 (1920, 1080)

/-- A native-call oracle under which stream creation succeeds: all six
required extensions present, one matching output layer, a valid stream
handle and a valid producer surface. -/
def envCreate : CreateEnv :=
  { extensions := requiredStreamExtensions, getLayersOk := true, numLayers := 1,
    minSwapInterval := 0, streamHandle := some 11, consumerLinkOk := true,
    producerSurface := 99 }

/-- The surface state after `resize 800 600` followed by a successful
`create` under `envCreate`. -/
def sCreated : EglStreamSurface :=
  { stream := some 11, crtc := 42, plane := 7, surface := 99, mode := (800, 600) }

/-- The attempt a fixed strategy's routine registers. -/
def CopyState.attempt : CopyState → Attempt
  | .DirectImport => .importAttempt
  | .CPUCopy => .cpuAttempt

/-- Whether a `render_dmabuf` call reaches the `swap_buffers` step
(i.e. its copy phase succeeds): undecided strategy needs one of the two
routines to succeed, a fixed strategy needs its own routine to
succeed. -/
def reachesSwap (env : RenderEnv) (st : WaylandState) : Bool :=
  match st.copy with
  | none => env.importOk || env.cpuOk
  | some .DirectImport => env.importOk
  | some .CPUCopy => env.cpuOk

/-! ## Helper lemmas -/

lemma combineModifier_eq (modHigh modLow : Nat) (hmh : modHigh < 2 ^ 32)
    (hml : modLow < 2 ^ 32) :
    combineModifier modHigh modLow = ((modHigh <<< 32) ||| modLow) % 2 ^ 64 := by
  unfold combineModifier
  rw [Nat.mod_eq_of_lt hmh, Nat.mod_eq_of_lt hml]
  rw [Nat.mod_eq_of_lt]
  apply Nat.bitwise_lt_two_pow
  · rw [Nat.shiftLeft_eq]
    calc modHigh * 2 ^ 32 < 2 ^ 32 * 2 ^ 32 :=
          Nat.mul_lt_mul_of_lt_of_le hmh (le_refl _) (by norm_num)
      _ = 2 ^ 64 := by norm_num
  · exact lt_trans hml (by norm_num)

lemma swapStep_ok {st st' : WaylandState} {sw : Option SwapBuffersError}
    (h : swapStep st sw = .ok st') :
    st'.copy = st.copy ∧ st'.bufferLen = st.bufferLen ∧ st'.dmabuf = st.dmabuf := by
  rcases sw with _ | e
  · simp only [swapStep] at h
    cases h
    exact ⟨rfl, rfl, rfl⟩
  · simp only [swapStep] at h
    split at h
    · cases h
      exact ⟨rfl, rfl, rfl⟩
    · cases h

lemma render_dmabuf_succeeds (env : RenderEnv) (st : WaylandState)
    (himp : env.importOk = true) (hcpu : env.cpuOk = true) (hswap : env.swap = none) :
    ∃ att st', render_dmabuf env st = (att, .ok st') := by
  unfold render_dmabuf
  rcases hc : st.copy with _ | c
  · rw [himp, hswap]
    exact ⟨_, _, rfl⟩
  · cases c
    · rw [himp, if_pos rfl, hswap]
      exact ⟨_, _, rfl⟩
    · rw [hcpu, if_pos rfl, hswap]
      exact ⟨_, _, rfl⟩

lemma render_dmabuf_preserves {env : RenderEnv} {st st' : WaylandState}
    {att : List Attempt} (h : render_dmabuf env st = (att, .ok st')) :
    st'.bufferLen = st.bufferLen ∧ st'.dmabuf = st.dmabuf ∧ st'.copy ≠ none := by
  unfold render_dmabuf at h
  split at h
  · split at h
    · rw [Prod.mk.injEq] at h
      obtain ⟨hcopy, hbuf, hdma⟩ := swapStep_ok h.2
      exact ⟨hbuf, hdma, by rw [hcopy]; simp⟩
    · split at h
      · rw [Prod.mk.injEq] at h
        obtain ⟨hcopy, hbuf, hdma⟩ := swapStep_ok h.2
        exact ⟨hbuf, hdma, by rw [hcopy]; simp⟩
      · rw [Prod.mk.injEq] at h
        exact absurd h.2 (by simp)
  · rename_i heq
    split at h
    · rw [Prod.mk.injEq] at h
      obtain ⟨hcopy, hbuf, hdma⟩ := swapStep_ok h.2
      exact ⟨hbuf, hdma, by rw [hcopy, heq]; simp⟩
    · rw [Prod.mk.injEq] at h
      exact absurd h.2 (by simp)
  · rename_i heq
    split at h
    · rw [Prod.mk.injEq] at h
      obtain ⟨hcopy, hbuf, hdma⟩ := swapStep_ok h.2
      exact ⟨hbuf, hdma, by rw [hcopy, heq]; simp⟩
    · rw [Prod.mk.injEq] at h
      exact absurd h.2 (by simp)

lemma runEvents_cons (env : RenderEnv) (st : WaylandState) (e : CaptureEvent)
    {evs : List CaptureEvent} (hne : evs ≠ []) :
    runEvents env st (e :: evs) =
      match handle_frame env st e with
      | .ok st' _ => runEvents env st' evs
      | .panic m => .panic m := by
  match evs, hne with
  | e' :: rest, _ => rfl

lemma addObjects_planes (M : Nat) : ∀ (objs : List ObjectReq) (b : DmabufBuilder),
    (addObjects b M objs).planes = b.planes ++ objs.map (fun o => o.toPlane M) := by
  intro objs
  induction objs with
  | nil => intro b; simp [addObjects]
  | cons o rest ih =>
      intro b
      simp [addObjects, ih, dmabufBuilder_add_plane, ObjectReq.toPlane,
        List.append_assoc]

lemma runEvents_assemble (env : RenderEnv) (himp : env.importOk = true)
    (hcpu : env.cpuOk = true) (hswap : env.swap = none) :
    ∀ (objs : List ObjectReq) (st : WaylandState) (b : DmabufBuilder) (M : Nat),
      st.dmabuf = some (b, M) →
      ∃ st', runEvents env st (objs.map ObjectReq.toEvent ++ [.ready]) =
        .ok st' (some (dmabufBuilder_build (addObjects b M objs))) := by
  intro objs
  induction objs with
  | nil =>
      intro st b M hdm
      simp only [List.map_nil, List.nil_append]
      show ∃ st', handle_frame env st .ready = _
      unfold handle_frame
      rw [hdm]
      obtain ⟨att, st', hr⟩ :=
        render_dmabuf_succeeds env { st with dmabuf := none } himp hcpu hswap
      rw [hr]
      exact ⟨st', rfl⟩
  | cons o rest ih =>
      intro st b M hdm
      simp only [List.map_cons, List.cons_append]
      rw [runEvents_cons env st _ (by simp)]
      simp only [ObjectReq.toEvent, handle_frame, hdm]
      exact ih _ _ _ rfl

lemma render_dmabuf_fixed (env : RenderEnv) (st : WaylandState) (c : CopyState)
    (hc : st.copy = some c) :
    (render_dmabuf env st).1 = [c.attempt] ∧
    ∀ st', (render_dmabuf env st).2 = .ok st' → st'.copy = some c := by
  cases c
  · constructor
    · by_cases himp : env.importOk = true <;>
        simp [render_dmabuf, hc, himp, CopyState.attempt]
    · intro st' h
      by_cases himp : env.importOk = true
      · simp only [render_dmabuf, hc, himp, if_true] at h
        obtain ⟨hcopy, -, -⟩ := swapStep_ok h
        rw [hcopy, hc]
      · simp only [render_dmabuf, hc, himp, if_false, Bool.false_eq_true] at h
        cases h
  · constructor
    · by_cases hcpu : env.cpuOk = true <;>
        simp [render_dmabuf, hc, hcpu, CopyState.attempt]
    · intro st' h
      by_cases hcpu : env.cpuOk = true
      · simp only [render_dmabuf, hc, hcpu, if_true] at h
        obtain ⟨hcopy, -, -⟩ := swapStep_ok h
        rw [hcopy, hc]
      · simp only [render_dmabuf, hc, hcpu, if_false, Bool.false_eq_true] at h
        cases h

lemma renderRun_fixed (c : CopyState) :
    ∀ (envs : List RenderEnv) (st : WaylandState), st.copy = some c →
      ∀ l ∈ renderRun st envs, l = [c.attempt] := by
  intro envs
  induction envs with
  | nil => intro st hc l hl; simp [renderRun] at hl
  | cons env rest ih =>
      intro st hc l hl
      obtain ⟨hatt, hpres⟩ := render_dmabuf_fixed env st c hc
      unfold renderRun at hl
      rcases hres : render_dmabuf env st with ⟨att, r⟩
      rw [hres] at hl
      have hatt' : att = [c.attempt] := by rw [← hatt, hres]
      cases r with
      | ok st' =>
          have hl' : l ∈ att :: renderRun st' rest := hl
          rw [List.mem_cons] at hl'
          rcases hl' with hl' | hl'
          · rw [hl', hatt']
          · exact ih st' (hpres st' (by rw [hres])) l hl'
      | err m =>
          have hl' : l ∈ [att] := hl
          rw [List.mem_singleton] at hl'
          rw [hl', hatt']
      | panic m =>
          have hl' : l ∈ [att] := hl
          rw [List.mem_singleton] at hl'
          rw [hl', hatt']

lemma render_dmabuf_swap (env : RenderEnv) (st : WaylandState)
    (hreach : reachesSwap env st = true) :
    ∃ st2, (render_dmabuf env st).2 = swapStep st2 env.swap := by
  rcases hc : st.copy with _ | c
  · by_cases himp : env.importOk = true
    · exact ⟨{ st with copy := some .DirectImport }, by simp [render_dmabuf, hc, himp]⟩
    · have hcpu : env.cpuOk = true := by
        have hr : (env.importOk || env.cpuOk) = true := by
          unfold reachesSwap at hreach
          rw [hc] at hreach
          exact hreach
        rcases Bool.or_eq_true_iff.mp hr with h | h
        · exact absurd h himp
        · exact h
      exact ⟨{ st with copy := some .CPUCopy }, by simp [render_dmabuf, hc, himp, hcpu]⟩
  · cases c
    · have himp : env.importOk = true := by
        unfold reachesSwap at hreach
        rw [hc] at hreach
        exact hreach
      exact ⟨st, by simp [render_dmabuf, hc, himp]⟩
    · have hcpu : env.cpuOk = true := by
        unfold reachesSwap at hreach
        rw [hc] at hreach
        exact hreach
      exact ⟨st, by simp [render_dmabuf, hc, hcpu]⟩

lemma loopStep_dead {st : SysState} (h : st.alive = false) (ev : LoopEvent) :
    loopStep st ev = st := by
  cases ev with
  | vblank => simp [loopStep, h]
  | tick => simp [loopStep, h]
  | capture cev env => simp [loopStep, h]

lemma runLoop_dead {st : SysState} (h : st.alive = false) :
    ∀ evs : List LoopEvent, runLoop st evs = st := by
  intro evs
  induction evs with
  | nil => rfl
  | cons ev rest ih =>
      show runLoop (loopStep st ev) rest = st
      rw [loopStep_dead h, ih]

/-! ## Claim theorems -/

/-- **C1.** For every valid capture event sequence `Begin(width, height,
flags, format, modHi, modLo)` followed by zero or more `Object` events
followed by `Ready`, the completed frame descriptor's 64-bit modifier
equals `(modHi << 32) | modLo` computed in unsigned 64-bit arithmetic,
and the descriptor's plane list contains exactly the submitted planes in
submission order.  (The native-call oracle hypotheses only let the
`Ready`-triggered render step return normally.) -/
theorem frame_descriptor_modifier_and_plane_order
    (width height bufferFlags format modHigh modLow : Nat)
    (objs : List ObjectReq) (env : RenderEnv) (st : WaylandState)
    (hmh : modHigh < 2 ^ 32) (hml : modLow < 2 ^ 32)
    (himp : env.importOk = true) (hcpu : env.cpuOk = true) (hswap : env.swap = none) :
    ∃ st' d,
      runEvents env st
          (.frame width height bufferFlags format modHigh modLow ::
            (objs.map ObjectReq.toEvent ++ [.ready])) = .ok st' (some d) ∧
      d.planes = objs.map
        (fun o => o.toPlane (((modHigh <<< 32) ||| modLow) % 2 ^ 64)) ∧
      (∀ p ∈ d.planes, p.modifier = ((modHigh <<< 32) ||| modLow) % 2 ^ 64) ∧
      (objs ≠ [] →
        d.modifierOfFrame = some (((modHigh <<< 32) ||| modLow) % 2 ^ 64)) := by
  rw [runEvents_cons env st _ (by simp)]
  have hframe : handle_frame env st
      (.frame width height bufferFlags format modHigh modLow) =
      .ok { st with dmabuf := some (dmabufBuilder_new width height format bufferFlags,
                                    combineModifier modHigh modLow) } none := rfl
  rw [hframe]
  obtain ⟨st', hrun⟩ := runEvents_assemble env himp hcpu hswap objs
    { st with dmabuf := some (dmabufBuilder_new width height format bufferFlags,
                              combineModifier modHigh modLow) }
    (dmabufBuilder_new width height format bufferFlags)
    (combineModifier modHigh modLow) rfl
  refine ⟨st', _, hrun, ?_, ?_, ?_⟩
  · rw [← combineModifier_eq modHigh modLow hmh hml]
    simp [dmabufBuilder_build, addObjects_planes, dmabufBuilder_new]
  · intro p hp
    rw [← combineModifier_eq modHigh modLow hmh hml] at *
    simp [dmabufBuilder_build, addObjects_planes, dmabufBuilder_new] at hp
    obtain ⟨o, _, rfl⟩ := hp
    rfl
  · intro hne
    rw [← combineModifier_eq modHigh modLow hmh hml]
    rcases objs with _ | ⟨o, rest⟩
    · exact absurd rfl hne
    · simp [Dmabuf.modifierOfFrame, dmabufBuilder_build, addObjects_planes,
        dmabufBuilder_new, ObjectReq.toPlane]

/-- Witness for C1: the spec's end-to-end scenario — a 1920x1080 frame,
single plane, modifier halves `(0, 1)`, assembled modifier `1`. -/
theorem frame_descriptor_modifier_and_plane_order_witness :
    (0 : Nat) < 2 ^ 32 ∧ (1 : Nat) < 2 ^ 32 ∧ env0.importOk = true ∧
    env0.cpuOk = true ∧ env0.swap = none ∧
    ∃ st' d,
      runEvents env0 stIdle
          (.frame 1920 1080 0 875713089 0 1 ::
            (([⟨10, 0, 0, 7680⟩] : List ObjectReq).map ObjectReq.toEvent ++
              [.ready])) = .ok st' (some d) ∧
      d.planes = ([⟨10, 0, 0, 7680⟩] : List ObjectReq).map
        (fun o => o.toPlane ((((0 : Nat) <<< 32) ||| 1) % 2 ^ 64)) ∧
      (∀ p ∈ d.planes, p.modifier = (((0 : Nat) <<< 32) ||| 1) % 2 ^ 64) ∧
      (([⟨10, 0, 0, 7680⟩] : List ObjectReq) ≠ [] →
        d.modifierOfFrame = some ((((0 : Nat) <<< 32) ||| 1) % 2 ^ 64)) :=
  ⟨by norm_num, by norm_num, rfl, rfl, rfl,
    frame_descriptor_modifier_and_plane_order 1920 1080 0 875713089 0 1
      [⟨10, 0, 0, 7680⟩] env0 stIdle (by norm_num) (by norm_num) rfl rfl rfl⟩

/-- **C2.** The copy strategy is decided exactly once, on the first
successfully processed frame: with strategy `Undecided` (`None`),
`render_dmabuf` tries direct import first and on its success fixes the
strategy to `DirectImport`; on its failure it tries the CPU copy and on
success fixes `CPUCopy`; once fixed, every call invokes only the fixed
strategy's routine and never re-attempts the other one for the rest of
the run; if both strategies fail on the very first frame, the process
panics. -/
theorem copy_strategy_decided_once (env : RenderEnv) (st : WaylandState) :
    (∀ c, st.copy = some c →
      (render_dmabuf env st).1 = [c.attempt] ∧
      ∀ st', (render_dmabuf env st).2 = .ok st' → st'.copy = some c) ∧
    (st.copy = none → env.importOk = true →
      (render_dmabuf env st).1 = [.importAttempt] ∧
      ∀ st', (render_dmabuf env st).2 = .ok st' → st'.copy = some .DirectImport) ∧
    (st.copy = none → env.importOk = false → env.cpuOk = true →
      (render_dmabuf env st).1 = [.importAttempt, .cpuAttempt] ∧
      ∀ st', (render_dmabuf env st).2 = .ok st' → st'.copy = some .CPUCopy) ∧
    (st.copy = none → env.importOk = false → env.cpuOk = false →
      (render_dmabuf env st).2 = .panic "Could not determine working copy path") ∧
    (∀ c, st.copy = some c → ∀ envs, ∀ l ∈ renderRun st envs, l = [c.attempt]) := by
  refine ⟨fun c hc => render_dmabuf_fixed env st c hc, ?_, ?_, ?_,
    fun c hc envs l hl => renderRun_fixed c envs st hc l hl⟩
  · intro hc himp
    constructor
    · simp [render_dmabuf, hc, himp]
    · intro st' h
      simp only [render_dmabuf, hc, himp, if_true] at h
      obtain ⟨hcopy, -, -⟩ := swapStep_ok h
      rw [hcopy]
  · intro hc himp hcpu
    constructor
    · simp [render_dmabuf, hc, himp, hcpu]
    · intro st' h
      simp only [render_dmabuf, hc, himp, hcpu, if_true, if_false,
        Bool.false_eq_true] at h
      obtain ⟨hcopy, -, -⟩ := swapStep_ok h
      rw [hcopy]
  · intro hc himp hcpu
    simp [render_dmabuf, hc, himp, hcpu]

/-- Witness for C2: with both copy routines failing on the first frame
(strategy still undecided), processing panics fatally. -/
theorem copy_strategy_decided_once_witness :
    stIdle.copy = none ∧ envFail.importOk = false ∧ envFail.cpuOk = false ∧
    (render_dmabuf envFail stIdle).2 = .panic "Could not determine working copy path" :=
  ⟨rfl, rfl, rfl, (copy_strategy_decided_once envFail stIdle).2.2.2.1 rfl rfl rfl⟩

/-- **C3.** For every presentation (buffer-swap) outcome reached after a
successful copy: a swap failure with one of the listed transient native
codes (`BadSurface`, `Unknown 0x3353`, `Unknown 0x321c`, all under
`EGLSwapBuffers`) sets the sticky retry flag and `render_dmabuf` still
returns success; a swap failure with any code outside that set panics
(aborts the process).  The last conjunct pins the transient set to
exactly those three codes. -/
theorem swap_error_classification (env : RenderEnv) (st : WaylandState)
    (hreach : reachesSwap env st = true) :
    (∀ e, env.swap = some e → isTransientSwapError e = true →
      ∃ st', (render_dmabuf env st).2 = .ok st' ∧ st'.tryAgain = true) ∧
    (∀ e, env.swap = some e → isTransientSwapError e = false →
      (render_dmabuf env st).2 = .panic "Swapping buffers failed") ∧
    (∀ e, isTransientSwapError e = true ↔
      (e = .EGLSwapBuffers .BadSurface ∨ e = .EGLSwapBuffers (.Unknown 0x3353) ∨
        e = .EGLSwapBuffers (.Unknown 0x321c))) := by
  obtain ⟨st2, hs⟩ := render_dmabuf_swap env st hreach
  refine ⟨?_, ?_, ?_⟩
  · intro e he htrans
    rw [hs, he]
    simp only [swapStep]
    rw [htrans]
    exact ⟨_, rfl, rfl⟩
  · intro e he htrans
    rw [hs, he]
    simp only [swapStep]
    rw [htrans]
    rfl
  · intro e
    rcases e with e' | e' | _
    · rcases e' with _ | _ | _ | _ | _ | code <;>
        simp [isTransientSwapError]
    · rcases e' with _ | _ | _ | _ | _ | code <;>
        simp [isTransientSwapError]
    · simp [isTransientSwapError]

/-- Witness for C3: the `RESOURCE_BUSY_EXT` (0x3353) swap failure sets
the retry flag and the loop survives; a `BadDisplay` swap failure
panics. -/
theorem swap_error_classification_witness :
    reachesSwap envTransient stIdle = true ∧
    (∃ st', (render_dmabuf envTransient stIdle).2 = .ok st' ∧ st'.tryAgain = true) ∧
    reachesSwap envFatalSwap stIdle = true ∧
    (render_dmabuf envFatalSwap stIdle).2 = .panic "Swapping buffers failed" :=
  ⟨rfl,
    (swap_error_classification envTransient stIdle rfl).1
      (.EGLSwapBuffers (.Unknown 0x3353)) rfl rfl,
    rfl,
    (swap_error_classification envFatalSwap stIdle rfl).2.1
      (.EGLSwapBuffers .BadDisplay) rfl rfl⟩

/-- **C4, counterexample.** The claim says a `Begin` (`Frame`) event
arriving while a descriptor is already under construction fails the
session with a protocol error.  On the code it does not: with `stBusy`
holding an in-progress descriptor, a second `Frame` event returns
normally (no panic, no error) and the new descriptor is accepted,
replacing the old one. -/
theorem second_begin_accepted_counterexample :
    stBusy.dmabuf ≠ none ∧
    handle_frame env0 stBusy (.frame 800 600 0 875713089 0 7) =
      HandleOutcome.ok
        { dmabuf := some (dmabufBuilder_new 800 600 875713089 0, combineModifier 0 7),
          tryAgain := false, copy := none,
          bufferLen := initialBufferLen 1920 1080 }
        none := by
  exact ⟨by decide, by decide⟩

/-- **C4, amended.** A `Begin` (`Frame`) event arriving while a
descriptor is already under construction is accepted: `handle_frame`
unconditionally replaces the in-progress descriptor with the fresh one
(and raises no error), for every prior state. -/
theorem begin_overwrites_in_progress (env : RenderEnv) (st : WaylandState)
    (width height bufferFlags format modHigh modLow : Nat) :
    handle_frame env st (.frame width height bufferFlags format modHigh modLow) =
      HandleOutcome.ok
        { st with dmabuf := some (dmabufBuilder_new width height format bufferFlags,
                                  combineModifier modHigh modLow) }
        none := rfl

/-- **C5, counterexample.** The claim says an `Object` event with no
descriptor under construction yields a protocol error that aborts only
the current frame, leaving the loop running and the process alive.  On
the code the `expect` panics: the dispatch returns the panic outcome and
the process dies (`alive = false`). -/
theorem object_without_begin_counterexample :
    stIdle.dmabuf = none ∧
    handle_frame env0 stIdle (.object 4 0 0 0) =
      .panic "Object event before Frame event" ∧
    (loopStep sysIdle (.capture (.object 4 0 0 0) env0)).alive = false :=
  ⟨rfl, rfl, rfl⟩

/-- **C5, amended.** An `Object` (plane) event arriving when no frame
descriptor is under construction panics with "Object event before Frame
event", terminating the process (the presentation loop does not
survive). -/
theorem object_without_begin_panics (env : RenderEnv) (st : WaylandState)
    (fd planeIdx offset stride : Nat) (h : st.dmabuf = none) :
    handle_frame env st (.object fd planeIdx offset stride) =
      .panic "Object event before Frame event" ∧
    ∀ sys : SysState, sys.wl = st → sys.alive = true →
      (loopStep sys (.capture (.object fd planeIdx offset stride) env)).alive = false := by
  have h1 : handle_frame env st (.object fd planeIdx offset stride) =
      .panic "Object event before Frame event" := by
    simp [handle_frame, h]
  refine ⟨h1, ?_⟩
  intro sys hwl halive
  simp [loopStep, halive, hwl, h1]

/-- Witness for the amended C5 at a concrete idle state. -/
theorem object_without_begin_panics_witness :
    stIdle.dmabuf = none ∧
    handle_frame env0 stIdle (.object 4 0 0 0) =
      .panic "Object event before Frame event" ∧
    (loopStep sysIdle (.capture (.object 4 0 0 0) env0)).alive = false :=
  ⟨rfl, (object_without_begin_panics env0 stIdle 4 0 0 0 rfl).1,
    (object_without_begin_panics env0 stIdle 4 0 0 0 rfl).2 sysIdle rfl rfl⟩

/-- **C6, counterexample.** The claim says a transient `Cancel` discards
any in-progress descriptor (the session holds no partially built
descriptor afterwards).  On the code the retry flag is set and the
outcome is a normal return, but `state.dmabuf` is left untouched: after
a transient cancel on `stBusy` the in-progress descriptor is still
there. -/
theorem transient_cancel_keeps_descriptor_counterexample :
    handle_frame env0 stBusy (.cancel false) =
      .ok { stBusy with tryAgain := true } none ∧
    ({ stBusy with tryAgain := true } : WaylandState).dmabuf ≠ none := by
  exact ⟨rfl, by decide⟩

/-- **C6, amended.** On a transient (non-permanent) `Cancel` event the
sticky retry flag is set and the outcome is a normal return (a retry
request, not an error); the in-progress descriptor, if any, is retained
unchanged rather than discarded. -/
theorem transient_cancel_sets_retry (env : RenderEnv) (st : WaylandState) :
    handle_frame env st (.cancel false) = .ok { st with tryAgain := true } none := rfl

/-- **C7.** On a `Cancel` event with the `Permanent` reason, at any
point including mid-construction of a descriptor, the pipeline stops:
the process dies on that dispatch, no capture request is issued by it,
and no event processed afterwards changes the state — in particular no
further capture request is ever issued. -/
theorem permanent_cancel_stops_pipeline (st : SysState) (env : RenderEnv)
    (halive : st.alive = true) :
    (loopStep st (.capture (.cancel true) env)).alive = false ∧
    (loopStep st (.capture (.cancel true) env)).issued = st.issued ∧
    ∀ evs, runLoop (loopStep st (.capture (.cancel true) env)) evs =
      loopStep st (.capture (.cancel true) env) := by
  have hstep : loopStep st (.capture (.cancel true) env) = { st with alive := false } := by
    simp [loopStep, halive, handle_frame]
  refine ⟨by rw [hstep], by rw [hstep], fun evs => runLoop_dead (by rw [hstep]) evs⟩

/-- Witness for C7: permanent cancel mid-construction (`sysMid` holds a
partially built descriptor) kills the loop; a subsequent vblank and tick
change nothing. -/
theorem permanent_cancel_stops_pipeline_witness :
    sysMid.alive = true ∧ sysMid.wl.dmabuf ≠ none ∧
    (loopStep sysMid (.capture (.cancel true) env0)).alive = false ∧
    (loopStep sysMid (.capture (.cancel true) env0)).issued = sysMid.issued ∧
    runLoop (loopStep sysMid (.capture (.cancel true) env0)) [.vblank, .tick] =
      loopStep sysMid (.capture (.cancel true) env0) :=
  ⟨rfl, by decide, (permanent_cancel_stops_pipeline sysMid env0 rfl).1,
    (permanent_cancel_stops_pipeline sysMid env0 rfl).2.1,
    (permanent_cancel_stops_pipeline sysMid env0 rfl).2.2 [.vblank, .tick]⟩

/-- **C8, counterexample.** The claim says at most one frame is in
flight at any time: a vblank trigger never starts a second capture while
one is outstanding.  On the code the vblank dispatcher calls
`capture_output` unconditionally: two vblank events with no intervening
terminal outcome leave two capture requests in flight. -/
theorem single_in_flight_counterexample :
    (runLoop sysIdle [.vblank]).inFlight = 1 ∧
    (runLoop sysIdle [.vblank, .vblank]).inFlight = 2 ∧
    ¬ (runLoop sysIdle [.vblank, .vblank]).inFlight ≤ 1 := by decide

/-- **C8, amended.** A vblank trigger issues a new capture request
unconditionally — regardless of how many requests are outstanding — and
a timer tick issues one exactly when the sticky retry flag is set; the
code itself does not enforce at-most-one-frame-in-flight (that bound
holds only under the external timing assumption that a new vblank
arrives only after the previous frame reached a terminal outcome). -/
theorem capture_issued_unconditionally (st : SysState) (halive : st.alive = true) :
    (loopStep st .vblank).issued = st.issued + 1 ∧
    (loopStep st .vblank).inFlight = st.inFlight + 1 ∧
    (loopStep st .tick).issued =
      (if st.wl.tryAgain then st.issued + 1 else st.issued) := by
  refine ⟨by simp [loopStep, halive], by simp [loopStep, halive], ?_⟩
  by_cases hta : st.wl.tryAgain = true
  · simp [loopStep, halive, hta]
  · simp [loopStep, halive, hta]

/-- Witness for the amended C8 at a state with one capture already in
flight: the vblank still issues another one. -/
theorem capture_issued_unconditionally_witness :
    sysMid.alive = true ∧ sysMid.inFlight = 1 ∧
    (loopStep sysMid .vblank).issued = sysMid.issued + 1 ∧
    (loopStep sysMid .vblank).inFlight = sysMid.inFlight + 1 ∧
    (loopStep sysMid .tick).issued =
      (if sysMid.wl.tryAgain then sysMid.issued + 1 else sysMid.issued) :=
  ⟨rfl, rfl, (capture_issued_unconditionally sysMid rfl).1,
    (capture_issued_unconditionally sysMid rfl).2.1,
    (capture_issued_unconditionally sysMid rfl).2.2⟩

lemma create_stream_sets_stream {env : CreateEnv} {s s' : EglStreamSurface}
    (h : s.create_stream env = .ok s') : ∃ hstream, s'.stream = some hstream := by
  unfold EglStreamSurface.create_stream at h
  split at h
  · cases h
  · split at h
    · cases h
    · split at h
      · cases h
      · split at h
        · cases h
        · split at h
          · cases h
            exact ⟨_, rfl⟩
          · cases h

/-- **C9.** `resize(w, h)` with the currently active mode leaves all
state unchanged (no recreation occurs); `resize` to a different mode
clears the stream handle and records the new mode (so the surface needs
recreation exactly once, discharged by the next successful `create`
call, after which `needs_recreation` is false again); in both cases
`resize` returns `true`. -/
theorem resize_semantics (s : EglStreamSurface) (w h : Int) :
    (s.mode = (w, h) → s.resize w h = (s, true)) ∧
    (s.mode ≠ (w, h) →
      (s.resize w h).1.stream = none ∧ (s.resize w h).1.mode = (w, h) ∧
      (s.resize w h).1.crtc = s.crtc ∧ (s.resize w h).1.plane = s.plane ∧
      ((s.resize w h).1).needs_recreation = true) ∧
    (s.resize w h).2 = true ∧
    (∀ env s' surf, EglStreamSurface.create env (s.resize w h).1 = .ok (s', surf) →
      s'.needs_recreation = false) := by
  refine ⟨?_, ?_, ?_, ?_⟩
  · intro hmode
    simp [EglStreamSurface.resize, hmode]
  · intro hmode
    simp [EglStreamSurface.resize, hmode, EglStreamSurface.needs_recreation]
  · by_cases hmode : s.mode = (w, h) <;> simp [EglStreamSurface.resize, hmode]
  · intro env s' surf hc
    unfold EglStreamSurface.create at hc
    rcases hcs : ((s.resize w h).1).create_stream env with e | s2
    · rw [hcs] at hc
      cases hc
    · rw [hcs] at hc
      cases hc
      obtain ⟨hstream, h2⟩ := create_stream_sets_stream hcs
      simp [EglStreamSurface.needs_recreation, h2]

/-- Witness for C9: `surf0` (mode 1920x1080): resizing to the same mode
is the identity; resizing to 800x600 clears the stream and flags
recreation; a successful `create` under `envCreate` then yields a
surface that no longer needs recreation. -/
theorem resize_semantics_witness :
    surf0.mode = ((1920 : Int), (1080 : Int)) ∧
    surf0.resize 1920 1080 = (surf0, true) ∧
    surf0.mode ≠ ((800 : Int), (600 : Int)) ∧
    (surf0.resize 800 600).1.stream = none ∧
    ((surf0.resize 800 600).1).needs_recreation = true ∧
    EglStreamSurface.create envCreate (surf0.resize 800 600).1 = .ok (sCreated, 99) ∧
    sCreated.needs_recreation = false :=
  ⟨rfl, (resize_semantics surf0 1920 1080).1 rfl, by decide,
    ((resize_semantics surf0 800 600).2.1 (by decide)).1,
    ((resize_semantics surf0 800 600).2.1 (by decide)).2.2.2.2,
    by rfl,
    (resize_semantics surf0 800 600).2.2.2 envCreate sCreated 99 (by rfl)⟩

lemma handle_frame_bufferLen {env : RenderEnv} {st st' : WaylandState}
    {ev : CaptureEvent} {c : Option Dmabuf}
    (h : handle_frame env st ev = .ok st' c) : st'.bufferLen = st.bufferLen := by
  cases ev with
  | frame width height bufferFlags format modHigh modLow =>
      cases h
      rfl
  | object fd planeIdx offset stride =>
      rcases hdm : st.dmabuf with _ | ⟨b, m⟩
      · simp only [handle_frame, hdm] at h
        cases h
      · simp only [handle_frame, hdm] at h
        cases h
        rfl
  | ready =>
      rcases hdm : st.dmabuf with _ | ⟨b, m⟩
      · simp only [handle_frame, hdm] at h
        cases h
      · simp only [handle_frame, hdm] at h
        rcases hr : render_dmabuf env { st with dmabuf := none } with ⟨att, r⟩
        rw [hr] at h
        cases r with
        | ok st2 =>
            cases h
            exact (render_dmabuf_preserves hr).1
        | err m' => cases h
        | panic m' => cases h
  | cancel permanent =>
      cases permanent
      · cases h
        rfl
      · cases h

/-- **C10.** The CPU copy path writes `width * height * 4` bytes of the
captured frame into the reusable byte buffer through a raw pointer with
no bounds check, while the buffer is allocated once at startup with
`sourceModeWidth * sourceModeHeight * 4` bytes and its length is never
changed by frame processing; under the unchecked precondition that the
captured frame's `width * height` does not exceed the source mode's
`width * height`, the write stays in bounds. -/
theorem cpu_copy_in_bounds :
    (∀ (st : WaylandState) (buf : Dmabuf) (srcW srcH : Nat),
      st.bufferLen = initialBufferLen srcW srcH →
      buf.width * buf.height ≤ ((srcW * srcH : Nat) : Int) →
      ¬ cpuCopyOutOfBounds st buf) ∧
    (∀ env st ev st' c, handle_frame env st ev = .ok st' c →
      st'.bufferLen = st.bufferLen) := by
  constructor
  · intro st buf srcW srcH hb hfit hoob
    unfold cpuCopyOutOfBounds copy_by_cpu_writeBytes at hoob
    rw [hb] at hoob
    unfold initialBufferLen at hoob
    push_cast at hoob hfit
    nlinarith [hoob, hfit]
  · intro env st ev st' c h
    exact handle_frame_bufferLen h

/-- Witness for C10: a 1280x720 frame fits the 1920x1080-sized buffer. -/
theorem cpu_copy_in_bounds_witness :
    stIdle.bufferLen = initialBufferLen 1920 1080 ∧
    bufSmall.width * bufSmall.height ≤ ((1920 * 1080 : Nat) : Int) ∧
    ¬ cpuCopyOutOfBounds stIdle bufSmall :=
  ⟨rfl, by decide,
    cpu_copy_in_bounds.1 stIdle bufSmall 1920 1080 rfl (by decide)⟩

end Nvscreencopy
